import Mathlib

/-!
Verification of the task admission, circuit-breaking and result-caching
engine of the cloudflare-testing repository.

The definitions below are a shallow embedding of the relevant source
files: `src/async_tasker.py` (circuit breaker, admission, worker-pool
scheduler), `src/app_tasker.py` (task & result store with TTL sweep) and
`src/api_wrapper.py` (health monitor and auto-recovery).  Timestamps are
modelled as integers (the source uses `time()` floats; all comparisons in
the claims are strict inequalities away from fractional boundaries).
Python dicts keyed by task id are modelled either as lists of ids (where
only membership and size matter) or as functions `String → Option _`.
-/

namespace CF

/-- The three circuit-breaker states (src/async_tasker.py line 16). -/
inductive BreakerMode
  | CLOSED
  | OPEN
  | HALF_OPEN
deriving DecidableEq, Repr

/-- `CircuitBreakerState` dataclass (src/async_tasker.py lines 12-18). -/
structure CircuitBreakerState where
  failure_count : Nat := 0
  last_failure_time : Int := 0
  state : BreakerMode := .CLOSED
  failure_threshold : Nat := 5
  recovery_timeout : Nat := 60
deriving DecidableEq, Repr

/-- The `self.stats` health-monitoring dict (src/async_tasker.py lines 33-39).
`last_success` is initialised to the construction time. -/
structure Stats where
  total_tasks : Nat := 0
  successful_tasks : Nat := 0
  failed_tasks : Nat := 0
  timeout_tasks : Nat := 0
  last_success : Int := 0
deriving DecidableEq, Repr

/-- `Tasker._update_circuit_breaker` (src/async_tasker.py lines 41-72).
On success: HALF_OPEN → CLOSED with counter zeroed, CLOSED decrements the
counter (`max(0, n-1)` is truncated subtraction on `Nat`), and the stats
record a success at `now`.  On failure: counter incremented and failure
time recorded first, then CLOSED-at-threshold or HALF_OPEN transitions to
OPEN.  Finally the passive-recovery check runs on the updated record. -/
def updateCircuitBreaker (cb : CircuitBreakerState) (stats : Stats)
    (success : Bool) (now : Int) : CircuitBreakerState × Stats :=
  let p :=
    if success then
      let cb' :=
        if cb.state = .HALF_OPEN then
          { cb with state := .CLOSED, failure_count := 0 }
        else if cb.state = .CLOSED then
          { cb with failure_count := cb.failure_count - 1 }
        else cb
      (cb', { stats with successful_tasks := stats.successful_tasks + 1,
                         last_success := now })
    else
      let cb' := { cb with failure_count := cb.failure_count + 1,
                           last_failure_time := now }
      let cb'' :=
        if cb'.state = .CLOSED ∧ cb'.failure_count ≥ cb'.failure_threshold then
          { cb' with state := .OPEN }
        else if cb'.state = .HALF_OPEN then
          { cb' with state := .OPEN }
        else cb'
      (cb'', { stats with failed_tasks := stats.failed_tasks + 1 })
  if p.1.state = .OPEN ∧ now - p.1.last_failure_time > (p.1.recovery_timeout : Int) then
    ({ p.1 with state := .HALF_OPEN, failure_count := 0 }, p.2)
  else p

/-- `Tasker._should_reject_task` (src/async_tasker.py lines 74-95).
The Python failure-rate test `failed / total > 0.8` (float division) is
rendered as the exact rational comparison `5 * failed > 4 * total`. -/
def shouldRejectTask (cb : CircuitBreakerState) (stats : Stats) (now : Int) : Bool :=
  if cb.state = .OPEN then true
  else if now - stats.last_success > 300 then true
  else
    let total_recent := stats.successful_tasks + stats.failed_tasks
    if total_recent > 10 ∧ 5 * stats.failed_tasks > 4 * total_recent then true
    else false

/-- Folding a sequence of failure reports (at the given times) through
`_update_circuit_breaker(success=False)`. -/
def applyFailures (cb : CircuitBreakerState) (stats : Stats) (ts : List Int) :
    CircuitBreakerState × Stats :=
  ts.foldl (fun p t => updateCircuitBreaker p.1 p.2 false t) (cb, stats)

/-- A failure report on a CLOSED breaker strictly below the threshold only
increments the counter and records the failure time. -/
theorem updateCB_failure_closed_below (cb : CircuitBreakerState) (stats : Stats)
    (now : Int) (h1 : cb.state = .CLOSED) (h2 : cb.failure_count + 1 < cb.failure_threshold) :
    updateCircuitBreaker cb stats false now =
      ({ cb with failure_count := cb.failure_count + 1, last_failure_time := now },
       { stats with failed_tasks := stats.failed_tasks + 1 }) := by
  simp only [updateCircuitBreaker, h1]
  have hge : ¬ (cb.failure_count + 1 ≥ cb.failure_threshold) := by omega
  simp [hge]

/-- A failure report on a CLOSED breaker that reaches the threshold flips
the state to OPEN (the passive-recovery check cannot fire because the
failure time was just set to `now`). -/
theorem updateCB_failure_closed_at_threshold (cb : CircuitBreakerState) (stats : Stats)
    (now : Int) (h1 : cb.state = .CLOSED) (h2 : cb.failure_count + 1 ≥ cb.failure_threshold) :
    updateCircuitBreaker cb stats false now =
      ({ cb with failure_count := cb.failure_count + 1, last_failure_time := now,
                 state := .OPEN },
       { stats with failed_tasks := stats.failed_tasks + 1 }) := by
  simp only [updateCircuitBreaker, h1]
  have hnz : ¬ ((now : Int) - now > (cb.recovery_timeout : Int)) := by omega
  simp [h2, hnz]

/-- An OPEN breaker makes `_should_reject_task` return true at any time. -/
theorem shouldReject_of_open (cb : CircuitBreakerState) (stats : Stats) (now : Int)
    (h : cb.state = .OPEN) : shouldRejectTask cb stats now = true := by
  simp [shouldRejectTask, h]

theorem applyFailures_cons (cb : CircuitBreakerState) (stats : Stats) (t : Int)
    (ts : List Int) :
    applyFailures cb stats (t :: ts) =
      applyFailures (updateCircuitBreaker cb stats false t).1
        (updateCircuitBreaker cb stats false t).2 ts := rfl

/-- A freshly constructed breaker (all dataclass defaults). -/
def freshBreaker : CircuitBreakerState := {}

/-- C1: for every nonempty sequence of failure reports made while the
breaker is CLOSED that brings the failure counter exactly up to the
configured threshold, the final report transitions the state to OPEN, and
immediately afterwards `_should_reject_task` returns true (at any query
time). -/
theorem c1_threshold_failures_open (ts : List Int) (cb : CircuitBreakerState)
    (stats : Stats) (h1 : cb.state = .CLOSED) (h2 : ts ≠ [])
    (h3 : cb.failure_count + ts.length = cb.failure_threshold) (now' : Int) :
    (applyFailures cb stats ts).1.state = .OPEN ∧
    shouldRejectTask (applyFailures cb stats ts).1 (applyFailures cb stats ts).2 now' = true := by
  induction ts generalizing cb stats with
  | nil => exact absurd rfl h2
  | cons t rest ih =>
    cases rest with
    | nil =>
      have hth : cb.failure_count + 1 ≥ cb.failure_threshold := by
        simp only [List.length_cons, List.length_nil] at h3
        omega
      rw [applyFailures_cons, updateCB_failure_closed_at_threshold cb stats t h1 hth]
      exact ⟨rfl, shouldReject_of_open _ _ _ rfl⟩
    | cons t2 rest2 =>
      have hlt : cb.failure_count + 1 < cb.failure_threshold := by
        simp only [List.length_cons] at h3
        omega
      rw [applyFailures_cons, updateCB_failure_closed_below cb stats t h1 hlt]
      refine ih _ _ h1 (by simp) ?_
      show cb.failure_count + 1 + (t2 :: rest2).length = cb.failure_threshold
      simp only [List.length_cons] at h3 ⊢
      omega

/-- C1 witness: five failures from a fresh CLOSED breaker (threshold 5)
open the breaker and make the rejection check true. -/
theorem c1_witness :
    (applyFailures freshBreaker {} [1, 2, 3, 4, 5]).1.state = .OPEN ∧
    shouldRejectTask (applyFailures freshBreaker {} [1, 2, 3, 4, 5]).1
      (applyFailures freshBreaker {} [1, 2, 3, 4, 5]).2 6 = true :=
  c1_threshold_failures_open [1, 2, 3, 4, 5] freshBreaker {} rfl (by simp) rfl 6

/-- C2 counterexample: with a fresh CLOSED breaker but a last success 301
seconds in the past, `_should_reject_task` returns true even though the
state is CLOSED — so the check is not equivalent to `state == OPEN`. -/
theorem c2_counterexample :
    freshBreaker.state = .CLOSED ∧
    shouldRejectTask freshBreaker { last_success := 0 } 301 = true := by decide

/-- C2 amended: `_should_reject_task` returns true iff the breaker is
OPEN, or no success was recorded in the last 300 seconds, or more than 10
outcomes were observed with a failure rate above 0.8. -/
theorem c2_amended (cb : CircuitBreakerState) (stats : Stats) (now : Int) :
    shouldRejectTask cb stats now = true ↔
      (cb.state = .OPEN ∨ now - stats.last_success > 300 ∨
       (stats.successful_tasks + stats.failed_tasks > 10 ∧
        5 * stats.failed_tasks > 4 * (stats.successful_tasks + stats.failed_tasks))) := by
  simp only [shouldRejectTask]
  split_ifs with h1 h2 h3 <;> simp_all

/-- A breaker that has been OPEN since a failure at time 0. -/
def openBreaker : CircuitBreakerState :=
  { state := .OPEN, failure_count := 5, last_failure_time := 0 }

/-- C3 counterexample: a failure report made while the breaker is OPEN and
100 seconds (> recovery timeout 60) after the last recorded failure does
NOT leave the breaker HALF_OPEN: the report re-records the failure time
before the passive-recovery check, so the breaker stays OPEN. -/
theorem c3_counterexample :
    openBreaker.state = .OPEN ∧
    (100 : Int) - openBreaker.last_failure_time > (openBreaker.recovery_timeout : Int) ∧
    (updateCircuitBreaker openBreaker {} false 100).1.state = .OPEN ∧
    (updateCircuitBreaker openBreaker {} false 100).1.state ≠ .HALF_OPEN := by decide

/-- C3 amended: an outcome report made while the breaker is OPEN and past
the recovery timeout transitions to HALF_OPEN with the counter reset only
when it reports success; a failure report re-records the failure time and
leaves the breaker OPEN. -/
theorem c3_amended (cb : CircuitBreakerState) (stats : Stats) (now : Int)
    (h1 : cb.state = .OPEN)
    (h2 : now - cb.last_failure_time > (cb.recovery_timeout : Int)) :
    (updateCircuitBreaker cb stats true now).1.state = .HALF_OPEN ∧
    (updateCircuitBreaker cb stats true now).1.failure_count = 0 ∧
    (updateCircuitBreaker cb stats false now).1.state = .OPEN ∧
    (updateCircuitBreaker cb stats false now).1.last_failure_time = now := by
  have hnz : ¬ ((now : Int) - now > (cb.recovery_timeout : Int)) := by omega
  have hpos : ¬ ((cb.recovery_timeout : Int) < 0) := by omega
  refine ⟨?_, ?_, ?_, ?_⟩ <;> simp [updateCircuitBreaker, h1, h2, hnz, hpos]

/-- C3 witness: success at time 100 on a breaker OPEN since time 0 yields
HALF_OPEN with counter 0; failure at time 100 keeps it OPEN. -/
theorem c3_witness :
    (updateCircuitBreaker openBreaker {} true 100).1.state = .HALF_OPEN ∧
    (updateCircuitBreaker openBreaker {} true 100).1.failure_count = 0 ∧
    (updateCircuitBreaker openBreaker {} false 100).1.state = .OPEN ∧
    (updateCircuitBreaker openBreaker {} false 100).1.last_failure_time = 100 :=
  c3_amended openBreaker {} 100 rfl (by decide)

/-- `CaptchaTaskResponse`.  Modelled from the spec: `models.py` is not
under `src/`; per spec section 3 a TaskResult has a status in
\x7bidle, processing, ready, error\x7d, a task id, an error code and
description on failure, and on success a solution payload (token string
plus type tag). -/
structure CaptchaTaskResponse where
  status : String
  taskId : String
  errorId : Nat := 0
  errorDescription : String := ""
  solutionToken : Option String := none
  solutionType : Option String := none
deriving DecidableEq, Repr

/-- Insert an id into a list with Python set/dict-key semantics (adding a
present key does not grow the collection). -/
def listInsert (id : String) (l : List String) : List String :=
  if id ∈ l then l else id :: l

/-- The mutable state of `async_tasker.Tasker` (src/async_tasker.py lines
21-39).  The `tasks`, `active_tasks` and `task_timeouts` collections are
modelled by their key sets; `semaphore_value` is the number of free worker
slots of the `asyncio.Semaphore`. -/
structure TaskerState where
  max_workers : Nat := 1
  semaphore_value : Nat := 1
  tasks : List String := []
  active_tasks : List String := []
  task_timeouts : List String := []
  circuit_breaker : CircuitBreakerState := {}
  stats : Stats := {}
deriving DecidableEq, Repr

/-- `Tasker.__init__(max_workers, ...)` at construction time `now`
(src/async_tasker.py lines 21-39): empty maps, fresh CLOSED breaker,
`last_success` initialised to the construction time. -/
def initTasker (max_workers : Nat) (now : Int) : TaskerState :=
  { max_workers := max_workers, semaphore_value := max_workers,
    stats := { last_success := now } }

/-- Rejection response of the circuit-breaker admission check
(src/async_tasker.py lines 116-120). -/
def rejectBreakerResp (id : String) : CaptchaTaskResponse :=
  { status := "error", taskId := id, errorId := 1,
    errorDescription := "Service temporarily unavailable (circuit breaker)" }

/-- Rejection response of the overload check (src/async_tasker.py lines
125-129). -/
def rejectOverloadResp (id : String) : CaptchaTaskResponse :=
  { status := "error", taskId := id, errorId := 1,
    errorDescription := "The solver is overloaded" }

/-- `Tasker._add_task` (src/async_tasker.py lines 106-141): increment the
total-task counter, run the circuit-breaker admission check, run the
overload check `len(self.tasks) > self.max_workers * 3`, and on acceptance
record the task as queued and active and arm its timeout supervisor.
`none` in the second component means the task was accepted (the Python
method returns `None` then). -/
def addTask (s : TaskerState) (id : String) (now : Int) :
    TaskerState × Option CaptchaTaskResponse :=
  let s := { s with stats := { s.stats with total_tasks := s.stats.total_tasks + 1 } }
  if shouldRejectTask s.circuit_breaker s.stats now then
    (s, some (rejectBreakerResp id))
  else if s.tasks.length > s.max_workers * 3 then
    (s, some (rejectOverloadResp id))
  else
    ({ s with tasks := listInsert id s.tasks,
              active_tasks := listInsert id s.active_tasks,
              task_timeouts := listInsert id s.task_timeouts }, none)

/-- `Tasker._cleanup_task` (src/async_tasker.py lines 174-185): drop the
task from the queued map and the active set and cancel (and drop) its
timeout supervisor. -/
def cleanupTask (s : TaskerState) (id : String) : TaskerState :=
  { s with tasks := s.tasks.erase id,
           active_tasks := s.active_tasks.erase id,
           task_timeouts := s.task_timeouts.erase id }

/-- The "Task timeout" error result (src/async_tasker.py lines 160-164). -/
def timeoutResp (id : String) : CaptchaTaskResponse :=
  { status := "error", taskId := id, errorId := 1,
    errorDescription := "Task timeout" }

/-- The body of `Tasker._timeout_task` when the 120-second sleep elapses
(src/async_tasker.py lines 151-172): if the task is still active,
increment the timeout counter, clean the task up, and emit the
"Task timeout" error result; otherwise do nothing. -/
def timeoutFire (s : TaskerState) (id : String) :
    TaskerState × Option CaptchaTaskResponse :=
  if id ∈ s.active_tasks then
    (cleanupTask
      { s with stats := { s.stats with timeout_tasks := s.stats.timeout_tasks + 1 } } id,
     some (timeoutResp id))
  else (s, none)

/-- Possible outcomes of the external Solver call inside `Tasker.solve`
(src/async_tasker.py lines 201-234): a token was produced, no token was
produced, the call raised, or the coroutine was cancelled. -/
inductive SolveOutcome
  | token (tok : String)
  | noToken
  | fault (msg : String)
  | cancelled
deriving DecidableEq, Repr

/-- The completion half of `Tasker.solve` (src/async_tasker.py lines
201-242), applied to the tasker state at the moment the Solver call
returns: interpret the outcome, update the circuit breaker, run the
unconditional cleanup, and return the result to deliver (none on
cancellation). -/
def solveComplete (s : TaskerState) (id ttype : String) (outcome : SolveOutcome)
    (now : Int) : TaskerState × Option CaptchaTaskResponse :=
  match outcome with
  | .token tok =>
      let (cb, st) := updateCircuitBreaker s.circuit_breaker s.stats true now
      (cleanupTask { s with circuit_breaker := cb, stats := st } id,
       some { status := "ready", taskId := id,
              solutionToken := some tok, solutionType := some ttype })
  | .noToken =>
      let (cb, st) := updateCircuitBreaker s.circuit_breaker s.stats false now
      (cleanupTask { s with circuit_breaker := cb, stats := st } id,
       some { status := "error", taskId := id, errorId := 1,
              errorDescription := "Token not found" })
  | .fault msg =>
      let (cb, st) := updateCircuitBreaker s.circuit_breaker s.stats false now
      (cleanupTask { s with circuit_breaker := cb, stats := st } id,
       some { status := "error", taskId := id, errorId := 1,
              errorDescription := msg })
  | .cancelled => (cleanupTask s id, none)

/-- A whole run of `Tasker.solve` (src/async_tasker.py lines 187-242).
The coroutine suspends twice: acquiring a semaphore slot and awaiting the
Solver.  `s1` is the tasker state when it resumes after the acquire — at
that point the one cancellation check `task.id not in self.active_tasks`
runs; if it passes, the Solver is invoked and `s2` is the state when the
Solver returns (the environment, e.g. a force reset, may have mutated the
tasker between the two suspension points).  Membership in the active set
is never re-read after the check. -/
def solveRun (s1 s2 : TaskerState) (id ttype : String) (outcome : SolveOutcome)
    (now : Int) : TaskerState × Option CaptchaTaskResponse :=
  if id ∈ s1.active_tasks then solveComplete s2 id ttype outcome now
  else (cleanupTask s1 id, none)

/-- The admission check never reads the total-task counter, so bumping it
first (as `_add_task` does) cannot change the decision. -/
theorem shouldReject_total_irrel (cb : CircuitBreakerState) (stats : Stats)
    (n : Nat) (now : Int) :
    shouldRejectTask cb { stats with total_tasks := n } now =
      shouldRejectTask cb stats now := rfl

/-- A healthy tasker with capacity 3 and nine queued/active tasks. -/
def overload9 : TaskerState :=
  { initTasker 3 0 with
    tasks := ["t1", "t2", "t3", "t4", "t5", "t6", "t7", "t8", "t9"],
    active_tasks := ["t1", "t2", "t3", "t4", "t5", "t6", "t7", "t8", "t9"],
    task_timeouts := ["t1", "t2", "t3", "t4", "t5", "t6", "t7", "t8", "t9"] }

/-- A healthy tasker with capacity 3 and ten queued/active tasks. -/
def overload10 : TaskerState :=
  { initTasker 3 0 with
    tasks := ["t1", "t2", "t3", "t4", "t5", "t6", "t7", "t8", "t9", "t10"],
    active_tasks := ["t1", "t2", "t3", "t4", "t5", "t6", "t7", "t8", "t9", "t10"],
    task_timeouts := ["t1", "t2", "t3", "t4", "t5", "t6", "t7", "t8", "t9", "t10"] }

/-- C4 counterexample: with worker capacity 3 and 9 tasks already recorded,
the 10th concurrent submission is NOT rejected — the overload test is
`len(tasks) > max_workers * 3`, i.e. `9 > 9`, which fails, so the task is
accepted and recorded. -/
theorem c4_counterexample :
    overload9.max_workers = 3 ∧ overload9.tasks.length = 9 ∧
    (addTask overload9 "t10" 0).2 = none ∧
    "t10" ∈ (addTask overload9 "t10" 0).1.tasks := by decide

/-- C4 amended: a submission made while the number of already-recorded
queued/active tasks strictly exceeds 3× the worker capacity (so, with
capacity 3, while 10 tasks are present) is rejected with "The solver is
overloaded", and the rejection leaves the task map, the active set, the
timeout supervisors, the free worker-slot count and the circuit breaker
untouched. -/
theorem c4_amended (s : TaskerState) (id : String) (now : Int)
    (h1 : shouldRejectTask s.circuit_breaker s.stats now = false)
    (h2 : s.tasks.length > s.max_workers * 3) :
    (addTask s id now).2 = some (rejectOverloadResp id) ∧
    (addTask s id now).1.tasks = s.tasks ∧
    (addTask s id now).1.active_tasks = s.active_tasks ∧
    (addTask s id now).1.task_timeouts = s.task_timeouts ∧
    (addTask s id now).1.semaphore_value = s.semaphore_value ∧
    (addTask s id now).1.circuit_breaker = s.circuit_breaker := by
  simp only [addTask, shouldReject_total_irrel, h1]
  simp [h2]

/-- C4 witness: with capacity 3 and ten tasks present, the next submission
is rejected as overloaded and changes nothing. -/
theorem c4_witness :
    (addTask overload10 "t11" 0).2 = some (rejectOverloadResp "t11") ∧
    (addTask overload10 "t11" 0).1.tasks = overload10.tasks ∧
    (addTask overload10 "t11" 0).1.active_tasks = overload10.active_tasks ∧
    (addTask overload10 "t11" 0).1.task_timeouts = overload10.task_timeouts ∧
    (addTask overload10 "t11" 0).1.semaphore_value = overload10.semaphore_value ∧
    (addTask overload10 "t11" 0).1.circuit_breaker = overload10.circuit_breaker :=
  c4_amended overload10 "t11" 0 (by decide) (by decide)

/-- Firing the timeout supervisors of a whole list of tasks in order. -/
def timeoutsRun (s : TaskerState) (ids : List String) : TaskerState :=
  ids.foldl (fun s' i => (timeoutFire s' i).1) s

/-- C10: a firing timeout supervisor never touches the circuit breaker or
the success/failure statistics; when the task is still active it adds one
to the timeout counter and emits the "Task timeout" error result, and when
it is not it does nothing; consequently a run consisting only of timeouts
leaves the breaker exactly as it was — in particular CLOSED from a fresh
tasker. -/
theorem c10_timeout_frame (s : TaskerState) (id : String) :
    (timeoutFire s id).1.circuit_breaker = s.circuit_breaker ∧
    (timeoutFire s id).1.stats.successful_tasks = s.stats.successful_tasks ∧
    (timeoutFire s id).1.stats.failed_tasks = s.stats.failed_tasks ∧
    (timeoutFire s id).1.stats.last_success = s.stats.last_success ∧
    (id ∈ s.active_tasks →
      (timeoutFire s id).1.stats.timeout_tasks = s.stats.timeout_tasks + 1 ∧
      (timeoutFire s id).2 = some (timeoutResp id)) ∧
    (id ∉ s.active_tasks → timeoutFire s id = (s, none)) ∧
    (∀ ids : List String, (timeoutsRun s ids).circuit_breaker = s.circuit_breaker) ∧
    (∀ (w : Nat) (t0 : Int) (ids : List String),
      (timeoutsRun (initTasker w t0) ids).circuit_breaker.state = .CLOSED) := by
  have hstep : ∀ (s' : TaskerState) (i : String),
      (timeoutFire s' i).1.circuit_breaker = s'.circuit_breaker := by
    intro s' i
    simp only [timeoutFire]
    split <;> rfl
  have hfold : ∀ (ids : List String) (s' : TaskerState),
      (timeoutsRun s' ids).circuit_breaker = s'.circuit_breaker := by
    intro ids
    induction ids with
    | nil => intro s'; rfl
    | cons a l ih =>
        intro s'
        calc (timeoutsRun s' (a :: l)).circuit_breaker
            = (timeoutsRun (timeoutFire s' a).1 l).circuit_breaker := rfl
          _ = (timeoutFire s' a).1.circuit_breaker := ih _
          _ = s'.circuit_breaker := hstep s' a
  refine ⟨hstep s id, ?_, ?_, ?_, ?_, ?_, fun ids => hfold ids s, ?_⟩
  · simp only [timeoutFire]; split <;> rfl
  · simp only [timeoutFire]; split <;> rfl
  · simp only [timeoutFire]; split <;> rfl
  · intro h; refine ⟨?_, ?_⟩ <;> simp [timeoutFire, h, cleanupTask]
  · intro h; simp [timeoutFire, h]
  · intro w t0 ids
    rw [hfold ids (initTasker w t0)]
    rfl

/-- A tasker with the single task "a" queued and active. -/
def exTimeout : TaskerState :=
  { initTasker 1 0 with tasks := ["a"], active_tasks := ["a"], task_timeouts := ["a"] }

/-- C10 witness: firing the supervisor of the active task "a" bumps only
the timeout counter and emits the timeout result; firing one for the
absent task "b" does nothing; neither touches the breaker. -/
theorem c10_witness :
    (timeoutFire exTimeout "a").1.circuit_breaker = exTimeout.circuit_breaker ∧
    (timeoutFire exTimeout "a").1.stats.timeout_tasks = exTimeout.stats.timeout_tasks + 1 ∧
    (timeoutFire exTimeout "a").2 = some (timeoutResp "a") ∧
    timeoutFire exTimeout "b" = (exTimeout, none) := by
  have ha := c10_timeout_frame exTimeout "a"
  have hb := c10_timeout_frame exTimeout "b"
  exact ⟨ha.1, (ha.2.2.2.2.1 (by decide)).1, (ha.2.2.2.2.1 (by decide)).2,
         hb.2.2.2.2.2.1 (by decide)⟩

/-- The class-level state of `app_tasker.Tasker` (src/app_tasker.py lines
11-14): the pending-task map (keyed by id, valued by its submission time —
the stored task payload plays no role in the claims), the result map
(keyed by id, valued by storage time and result), and the lazy-sweep
gate timestamp. -/
structure AppState where
  tasks : String → Option Int
  results : String → Option (Int × CaptchaTaskResponse)
  last_clear : Int

/-- The store at module-load time `now`: both maps empty. -/
def initApp (now : Int) : AppState :=
  { tasks := fun _ => none, results := fun _ => none, last_clear := now }

/-- Whether the pending task `id` is older than the 120-second task TTL at
time `now` (the expulsion test of src/app_tasker.py line 137, with the
default `task_timeout = 120`). -/
def taskExpiredAt (s : AppState) (now : Int) (id : String) : Bool :=
  match s.tasks id with
  | some t => decide (t + 120 < now)
  | none => false

/-- The synthesized "Task expired" result (src/app_tasker.py line 138).
The source omits the `status` field; `models.py` is not under `src/`, so
the default is modelled from the spec, which calls the synthesized entry
an `error` result. -/
def expiredResult (id : String) : CaptchaTaskResponse :=
  { status := "error", taskId := id, errorId := 1,
    errorDescription := "Task expired" }

/-- `Tasker.clear_expired` (src/app_tasker.py lines 133-148) with the
default TTLs `task_timeout = 120` and `result_timeout = 300`: every
pending task past the task TTL is moved into a fresh "Task expired" error
result (stamped `now`), then every result past the result TTL is deleted,
and the sweep gate is restamped. -/
def clearExpired (s : AppState) (now : Int) : AppState :=
  let tasks' : String → Option Int := fun id =>
    if taskExpiredAt s now id then none else s.tasks id
  let resultsMid : String → Option (Int × CaptchaTaskResponse) := fun id =>
    if taskExpiredAt s now id then some (now, expiredResult id) else s.results id
  let results' : String → Option (Int × CaptchaTaskResponse) := fun id =>
    match resultsMid id with
    | some (t, r) => if t + 300 < now then none else some (t, r)
    | none => none
  { tasks := tasks', results := results', last_clear := now }

/-- The lazy sweep gate `if cls._last_clear + 30 < time(): cls.clear_expired()`
run in the `finally` blocks of the store's mutating calls. -/
def lazySweep (s : AppState) (now : Int) : AppState :=
  if s.last_clear + 30 < now then clearExpired s now else s

/-- The "processing" response (src/app_tasker.py line 110). -/
def processingResp (id : String) : CaptchaTaskResponse :=
  { status := "processing", taskId := id }

/-- The "not found" response (src/app_tasker.py lines 112-115). -/
def notFoundResp (id : String) : CaptchaTaskResponse :=
  { status := "error", taskId := id, errorId := 1,
    errorDescription := "Response expired or task not exists" }

/-- The invalid-key response (src/app_tasker.py line 104); no task id is
attached in the source. -/
def invalidKeyResp : CaptchaTaskResponse :=
  { status := "error", taskId := "", errorId := 1,
    errorDescription := "Invalid API key" }

/-- The lookup core of `Tasker.get_result` (src/app_tasker.py lines
106-115): a stored result always wins; otherwise a pending task reports
"processing"; otherwise "not found / expired". -/
def getResultResponse (s : AppState) (id : String) : CaptchaTaskResponse :=
  match s.results id with
  | some (_, r) => r
  | none => if (s.tasks id).isSome then processingResp id else notFoundResp id

/-- A full `Tasker.get_result` call (src/app_tasker.py lines 96-121): the
response is computed on the un-swept state, and only then does the
`finally` block run the gated sweep — the sweep cannot affect the response
of the call that triggers it.  `keyValid` abstracts the environment-based
API-key comparison of the facade. -/
def getResultCall (s : AppState) (keyValid : Bool) (id : String) (now : Int) :
    CaptchaTaskResponse × AppState :=
  if keyValid then (getResultResponse s id, lazySweep s now)
  else (invalidKeyResp, lazySweep s now)

/-- `Tasker.add_result` (src/app_tasker.py lines 82-94): if the task id is
pending, move it into the result map (stamped `now`); otherwise raise
(modelled by the `false` flag) and store nothing.  Either way the
`finally` block runs the gated sweep. -/
def addResult (s : AppState) (id : String) (r : CaptchaTaskResponse) (now : Int) :
    AppState × Bool :=
  if (s.tasks id).isSome then
    (lazySweep
      { s with tasks := fun x => if x = id then none else s.tasks x,
               results := fun x => if x = id then some (now, r) else s.results x }
      now, true)
  else (lazySweep s now, false)

/-- C5: a sweep moves every pending task older than 120 seconds with no
stored result into the "Task expired" error result, removing it from the
pending map in the same step, and it deletes outright every stored result
older than 300 seconds; after the sweep, `get_result` for the expired task
reports the "Task expired" error. -/
theorem c5_sweep_expiry (s : AppState) (a b : String) (ta tb : Int)
    (rb : CaptchaTaskResponse) (now : Int)
    (h1 : s.tasks a = some ta) (_h2 : s.results a = none) (h3 : ta + 120 < now)
    (h4 : s.results b = some (tb, rb)) (h5 : s.tasks b = none)
    (h6 : tb + 300 < now) :
    (clearExpired s now).tasks a = none ∧
    (clearExpired s now).results a = some (now, expiredResult a) ∧
    (getResultCall (clearExpired s now) true a now).1 = expiredResult a ∧
    (clearExpired s now).results b = none := by
  have hexp : taskExpiredAt s now a = true := by
    simp [taskExpiredAt, h1, h3]
  have hnexp : taskExpiredAt s now b = false := by
    simp [taskExpiredAt, h5]
  have hkeep : ¬ (now + 300 < now) := by omega
  refine ⟨?_, ?_, ?_, ?_⟩
  · simp [clearExpired, hexp]
  · simp [clearExpired, hexp, hkeep]
  · simp [getResultCall, getResultResponse, clearExpired, hexp, hkeep]
  · simp [clearExpired, hnexp, h4, h6]

/-- A store holding one fresh pending task, one stale pending task, and
one stale stored result. -/
def exStore : AppState :=
  { tasks := fun id => if id = "old" then some 0 else if id = "new" then some 150 else none,
    results := fun id => if id = "res" then some (-400, processingResp "res") else none,
    last_clear := 0 }

/-- C5 witness: sweeping `exStore` at time 200 expels the stale task "old"
into a "Task expired" error visible to `get_result`, and deletes the
result "res" stored at time -400. -/
theorem c5_witness :
    (clearExpired exStore 200).tasks "old" = none ∧
    (clearExpired exStore 200).results "old" = some (200, expiredResult "old") ∧
    (getResultCall (clearExpired exStore 200) true "old" 200).1 = expiredResult "old" ∧
    (clearExpired exStore 200).results "res" = none :=
  c5_sweep_expiry exStore "old" "res" 0 (-400) (processingResp "res") 200
    rfl rfl (by decide) rfl rfl (by decide)

/-- A store whose only entry is a result stored at time 0 for task "r". -/
def staleStore : AppState :=
  { tasks := fun _ => none,
    results := fun id => if id = "r" then some (0, processingResp "r") else none,
    last_clear := 0 }

/-- C6 counterexample: at time 301 the stored result of task "r" is 301
seconds old — past the 300-second TTL — yet `get_result` still returns it,
not the "not found" error: the response is computed before the lazy sweep
in the `finally` block runs. -/
theorem c6_counterexample :
    (0 : Int) + 300 < 301 ∧
    staleStore.last_clear + 30 < 301 ∧
    (getResultCall staleStore true "r" 301).1 = processingResp "r" ∧
    (getResultCall staleStore true "r" 301).1 ≠ notFoundResp "r" := by decide

/-- C6 amended: once a sweep has run at a time past a stored result's
300-second TTL, the result is deleted, and a `get_result` call on the
swept store reports the "not found / expired" error. -/
theorem c6_amended (s : AppState) (id : String) (t : Int)
    (r : CaptchaTaskResponse) (now : Int)
    (h1 : s.results id = some (t, r)) (h2 : s.tasks id = none)
    (h3 : t + 300 < now) :
    (clearExpired s now).results id = none ∧
    (getResultCall (clearExpired s now) true id now).1 = notFoundResp id := by
  have hnexp : taskExpiredAt s now id = false := by
    simp [taskExpiredAt, h2]
  refine ⟨?_, ?_⟩
  · simp [clearExpired, hnexp, h1, h3]
  · simp [getResultCall, getResultResponse, clearExpired, hnexp, h1, h3, h2]

/-- C6 witness: sweeping `staleStore` at time 301 deletes the stale result
of "r", after which `get_result` reports "not found". -/
theorem c6_witness :
    (clearExpired staleStore 301).results "r" = none ∧
    (getResultCall (clearExpired staleStore 301) true "r" 301).1 = notFoundResp "r" :=
  c6_amended staleStore "r" 0 (processingResp "r") 301 rfl rfl (by decide)

/-- A tasker in which task "A" is queued and active (admitted, solve
started, Solver call in flight). -/
def exSolve1 : TaskerState :=
  { initTasker 1 0 with tasks := ["A"], active_tasks := ["A"], task_timeouts := ["A"] }

/-- C7 counterexample: task "A" is active when `solve` performs its single
cancellation check, then a force reset empties the tasker while the Solver
call is in flight (state `initTasker 1 50`); when the Solver returns a
token, `solve` nevertheless builds the ready result and delivers it to the
callback — the solve is not abandoned. -/
theorem c7_counterexample :
    "A" ∈ exSolve1.active_tasks ∧
    "A" ∉ (initTasker 1 50).active_tasks ∧
    (solveRun exSolve1 (initTasker 1 50) "A" "AntiTurnstileTaskProxyLess"
      (.token "abc") 60).2 =
      some { status := "ready", taskId := "A", solutionToken := some "abc",
             solutionType := some "AntiTurnstileTaskProxyLess" } := by decide

/-- C7 amended: a task that is no longer in the active set when `solve`
reaches its post-acquire cancellation check is abandoned silently — no
result is produced and the circuit breaker is untouched; a removal after
that check lets the solve complete and deliver its result (the
counterexample), but the store then refuses it: `add_result` for a task id
absent from the pending map stores nothing. -/
theorem c7_amended (s1 s2 : TaskerState) (id ttype : String)
    (outcome : SolveOutcome) (now : Int) (ap : AppState)
    (r : CaptchaTaskResponse) (now' : Int)
    (h1 : id ∉ s1.active_tasks) (h2 : ap.tasks id = none)
    (h3 : ap.results id = none) :
    solveRun s1 s2 id ttype outcome now = (cleanupTask s1 id, none) ∧
    (solveRun s1 s2 id ttype outcome now).1.circuit_breaker = s1.circuit_breaker ∧
    (addResult ap id r now').2 = false ∧
    ((addResult ap id r now').1).results id = none := by
  have hrun : solveRun s1 s2 id ttype outcome now = (cleanupTask s1 id, none) := by
    simp [solveRun, h1]
  refine ⟨hrun, by rw [hrun]; rfl, ?_, ?_⟩
  · simp [addResult, h2]
  · simp only [addResult, h2, Option.isSome_none, Bool.false_eq_true, if_neg,
      ite_false]
    simp only [lazySweep]
    split
    · simp [clearExpired, taskExpiredAt, h2, h3]
    · exact h3

/-- C7 witness: for the never-admitted task "Z", a solve run abandons
silently with no breaker change, and `add_result` on an empty store
refuses to store anything for it. -/
theorem c7_witness :
    solveRun (initTasker 1 0) (initTasker 1 0) "Z" "T" (.token "x") 5 =
      (cleanupTask (initTasker 1 0) "Z", none) ∧
    (solveRun (initTasker 1 0) (initTasker 1 0) "Z" "T" (.token "x") 5).1.circuit_breaker =
      (initTasker 1 0).circuit_breaker ∧
    (addResult (initApp 0) "Z" (timeoutResp "Z") 100).2 = false ∧
    ((addResult (initApp 0) "Z" (timeoutResp "Z") 100).1).results "Z" = none :=
  c7_amended (initTasker 1 0) (initTasker 1 0) "Z" "T" (.token "x") 5
    (initApp 0) (timeoutResp "Z") 100 (by decide) rfl rfl

/-- The state of `DockerTurnstileAPI` (src/api_wrapper.py lines 30-49):
worker capacity, the restart threshold (default 5), the consecutive
health-failure counter, and the two tasker components. -/
structure WrapperState where
  max_workers : Nat
  restart_threshold : Nat := 5
  consecutive_failures : Nat := 0
  appTasker : AppState
  asyncTasker : TaskerState

/-- `async_tasker.Tasker.force_reset` (src/async_tasker.py lines 263-285):
cancel all outstanding timeout supervisors (modelled by emptying
`task_timeouts`), clear the task map and active set, and replace the
circuit breaker with a fresh CLOSED one.  The rolling statistics and the
semaphore are left as they are. -/
def forceResetTasker (s : TaskerState) : TaskerState :=
  { s with tasks := [], active_tasks := [], task_timeouts := [],
           circuit_breaker := {} }

/-- `DockerTurnstileAPI._auto_recover` (src/api_wrapper.py lines 154-176):
force-reset the async tasker, clear the app tasker's task and result maps,
then replace the async tasker by a freshly constructed one with the same
capacity (and the same result-delivery callback wiring).  Note that the
consecutive-failure counter is not touched here. -/
def clearAppMaps (a : AppState) : AppState :=
  { a with tasks := fun _ => none, results := fun _ => none }

def autoRecover (s : WrapperState) (now : Int) : WrapperState :=
  let s1 := { s with asyncTasker := forceResetTasker s.asyncTasker }
  let s2 := { s1 with appTasker := clearAppMaps s1.appTasker }
  { s2 with asyncTasker := initTasker s2.max_workers now }

/-- One tick of `DockerTurnstileAPI._health_monitor` (src/api_wrapper.py
lines 101-152).  `flagged` abstracts whether the issue-detection list is
nonempty.  A flagged tick increments the consecutive-failure counter and,
at the restart threshold, runs auto-recovery and then zeroes the counter;
an unflagged tick zeroes the counter. -/
def healthMonitorTick (s : WrapperState) (flagged : Bool) (now : Int) :
    WrapperState :=
  if flagged then
    let s' := { s with consecutive_failures := s.consecutive_failures + 1 }
    if s'.consecutive_failures ≥ s'.restart_threshold then
      { autoRecover s' now with consecutive_failures := 0 }
    else s'
  else { s with consecutive_failures := 0 }

/-- The `/reset` endpoint `DockerTurnstileAPI.force_reset`
(src/api_wrapper.py lines 335-349): it runs `_auto_recover` and nothing
else — in particular it does not reset the consecutive-failure counter. -/
def forceResetEndpoint (s : WrapperState) (now : Int) : WrapperState :=
  autoRecover s now

/-- A wrapper with three recorded consecutive health failures. -/
def exWrapper : WrapperState :=
  { max_workers := 3, consecutive_failures := 3, appTasker := initApp 0,
    asyncTasker := initTasker 3 0 }

/-- C8 counterexample: the operator-triggered reset endpoint runs the
recovery but leaves the consecutive-failure counter at its old value 3
instead of resetting it to 0. -/
theorem c8_counterexample :
    exWrapper.consecutive_failures = 3 ∧
    (forceResetEndpoint exWrapper 100).consecutive_failures = 3 ∧
    (forceResetEndpoint exWrapper 100).consecutive_failures ≠ 0 := by
  exact ⟨rfl, rfl, by decide⟩

/-- C8 amended: a monitor tick whose flagged count reaches the restart
threshold performs auto-recovery (empty app maps, freshly constructed
async tasker: fresh CLOSED breaker with zero failures, no tasks, no armed
supervisors, same capacity, all worker slots free) and resets the
consecutive-failure counter to 0; the operator-triggered reset performs
the same recovery but leaves the consecutive-failure counter unchanged. -/
theorem c8_amended (s : WrapperState) (now : Int)
    (h : s.consecutive_failures + 1 ≥ s.restart_threshold) :
    (healthMonitorTick s true now).consecutive_failures = 0 ∧
    (healthMonitorTick s true now).asyncTasker = initTasker s.max_workers now ∧
    (∀ id, (healthMonitorTick s true now).appTasker.tasks id = none) ∧
    (∀ id, (healthMonitorTick s true now).appTasker.results id = none) ∧
    (forceResetEndpoint s now).asyncTasker = initTasker s.max_workers now ∧
    (∀ id, (forceResetEndpoint s now).appTasker.tasks id = none) ∧
    (∀ id, (forceResetEndpoint s now).appTasker.results id = none) ∧
    (forceResetEndpoint s now).consecutive_failures = s.consecutive_failures ∧
    (initTasker s.max_workers now).circuit_breaker.state = .CLOSED ∧
    (initTasker s.max_workers now).circuit_breaker.failure_count = 0 ∧
    (initTasker s.max_workers now).tasks = [] ∧
    (initTasker s.max_workers now).active_tasks = [] ∧
    (initTasker s.max_workers now).task_timeouts = [] ∧
    (initTasker s.max_workers now).max_workers = s.max_workers ∧
    (initTasker s.max_workers now).semaphore_value = s.max_workers := by
  refine ⟨?_, ?_, ?_, ?_, rfl, fun _ => rfl, fun _ => rfl, rfl,
          rfl, rfl, rfl, rfl, rfl, rfl, rfl⟩ <;>
    simp [healthMonitorTick, autoRecover, clearAppMaps, h]

/-- A wrapper one flagged tick away from the restart threshold. -/
def exWrapper4 : WrapperState :=
  { max_workers := 3, consecutive_failures := 4, appTasker := initApp 0,
    asyncTasker := initTasker 3 0 }

/-- C8 witness: the fifth flagged tick recovers and zeroes the counter,
while the endpoint reset on the same state recovers but keeps it at 4. -/
theorem c8_witness :
    (healthMonitorTick exWrapper4 true 100).consecutive_failures = 0 ∧
    (healthMonitorTick exWrapper4 true 100).asyncTasker = initTasker 3 100 ∧
    (∀ id, (healthMonitorTick exWrapper4 true 100).appTasker.tasks id = none) ∧
    (∀ id, (healthMonitorTick exWrapper4 true 100).appTasker.results id = none) ∧
    (forceResetEndpoint exWrapper4 100).asyncTasker = initTasker 3 100 ∧
    (∀ id, (forceResetEndpoint exWrapper4 100).appTasker.tasks id = none) ∧
    (∀ id, (forceResetEndpoint exWrapper4 100).appTasker.results id = none) ∧
    (forceResetEndpoint exWrapper4 100).consecutive_failures = 4 ∧
    (initTasker 3 100).circuit_breaker.state = .CLOSED ∧
    (initTasker 3 100).circuit_breaker.failure_count = 0 ∧
    (initTasker 3 100).tasks = [] ∧
    (initTasker 3 100).active_tasks = [] ∧
    (initTasker 3 100).task_timeouts = [] ∧
    (initTasker 3 100).max_workers = 3 ∧
    (initTasker 3 100).semaphore_value = 3 :=
  c8_amended exWrapper4 100 (by decide)

/-- The async tasker together with the set of admitted solves whose
coroutines have not yet finished. -/
structure SysState where
  tasker : TaskerState
  inflight : List String

/-- An observable event of the async tasker: a submission, the completion
of an in-flight admitted solve (reporting its outcome to the breaker), or
a firing timeout supervisor. -/
inductive Ev
  | submit (id : String) (t : Int)
  | complete (id : String) (success : Bool) (t : Int)
  | timeoutEv (id : String) (t : Int)
deriving DecidableEq, Repr

/-- The timestamp of an event. -/
def evTime : Ev → Int
  | .submit _ t => t
  | .complete _ _ t => t
  | .timeoutEv _ t => t

/-- The state transition of one event.  A submission runs `_add_task`; an
accepted one puts the solve in flight.  A completion of an in-flight solve
reports to the circuit breaker and cleans the task up (`Tasker.solve`,
src/async_tasker.py lines 187-242); completions of solves that are not in
flight cannot happen and are no-ops.  A timeout event runs the supervisor
body. -/
def applyEv (s : SysState) : Ev → SysState
  | .submit id t =>
      let p := addTask s.tasker id t
      { tasker := p.1,
        inflight := if p.2.isNone then listInsert id s.inflight else s.inflight }
  | .complete id success t =>
      if id ∈ s.inflight then
        let q := updateCircuitBreaker s.tasker.circuit_breaker s.tasker.stats success t
        { tasker := cleanupTask { s.tasker with circuit_breaker := q.1, stats := q.2 } id,
          inflight := s.inflight.erase id }
      else s
  | .timeoutEv id _ => { s with tasker := (timeoutFire s.tasker id).1 }

/-- Folding a list of events through the transition function. -/
def applyEvs (s : SysState) (evs : List Ev) : SysState := evs.foldl applyEv s

/-- Whether an event is not a submission admitted by `_add_task`. -/
def evRejected (s : SysState) : Ev → Bool
  | .submit id t => ((addTask s.tasker id t).2).isSome
  | _ => true

/-- True when every submission event along the run is rejected by
`_add_task`. -/
def submitsAllRejected (s : SysState) : List Ev → Bool
  | [] => true
  | e :: es => evRejected s e && submitsAllRejected (applyEv s e) es

/-- A system whose tasker was constructed at time 0, with nothing in
flight. -/
def sys0 : SysState := { tasker := initTasker 1 0, inflight := [] }

/-- C9 counterexample: task "A" is admitted at time 0 and its solve stays
in flight.  At time 301 more than 300 seconds have elapsed with no
reported success and the submission made then ("B") is indeed rejected —
the claim's premise holds.  But when the in-flight solve of "A" reports
success at time 305, the last-success timestamp is refreshed and the
submission of "C" at time 306 is admitted again, although the tasker was
never reconstructed. -/
theorem c9_counterexample :
    (addTask sys0.tasker "A" 0).2 = none ∧
    301 - (applyEvs sys0 [.submit "A" 0]).tasker.stats.last_success > 300 ∧
    ((addTask (applyEvs sys0 [.submit "A" 0]).tasker "B" 301).2).isSome = true ∧
    (addTask (applyEvs sys0 [.submit "A" 0, .submit "B" 301,
      .complete "A" true 305]).tasker "C" 306).2 = none := by decide

/-- A stale admission check rejects regardless of the breaker state. -/
theorem shouldReject_of_stale (cb : CircuitBreakerState) (stats : Stats)
    (now : Int) (h : now - stats.last_success > 300) :
    shouldRejectTask cb stats now = true := by
  simp only [shouldRejectTask]
  split_ifs <;> simp_all

/-- A submission made more than 300 seconds after the last recorded
success is rejected by the breaker check and leaves the last-success
timestamp unchanged. -/
theorem addTask_stale_reject (s : TaskerState) (id : String) (t : Int)
    (h : t - s.stats.last_success > 300) :
    (addTask s id t).2 = some (rejectBreakerResp id) ∧
    (addTask s id t).1.stats.last_success = s.stats.last_success := by
  have hsr : shouldRejectTask s.circuit_breaker s.stats t = true :=
    shouldReject_of_stale _ _ _ h
  refine ⟨?_, ?_⟩ <;> simp [addTask, shouldReject_total_irrel, hsr]

/-- C9 amended: once more than 300 seconds have elapsed since the last
recorded success AND no admitted solve is still in flight, every
subsequent submission is rejected, and no event at or after that point
can refresh the last-success timestamp or put a solve in flight — so the
rejection persists until the tasker is reconstructed. -/
theorem c9_amended (t0 L : Int) (h3 : t0 - L > 300) (evs : List Ev) :
    ∀ s : SysState, s.inflight = [] → s.tasker.stats.last_success = L →
      (∀ e ∈ evs, t0 ≤ evTime e) →
      submitsAllRejected s evs = true ∧
      (applyEvs s evs).inflight = [] ∧
      (applyEvs s evs).tasker.stats.last_success = L := by
  induction evs with
  | nil => intro s h1 h2 _; exact ⟨rfl, h1, h2⟩
  | cons e es ih =>
    intro s h1 h2 h4
    have ht : t0 ≤ evTime e := h4 e (List.mem_cons_self e es)
    have h4' : ∀ x ∈ es, t0 ≤ evTime x := fun x hx => h4 x (List.mem_cons_of_mem _ hx)
    have hstep : (applyEv s e).inflight = [] ∧
        (applyEv s e).tasker.stats.last_success = L ∧
        evRejected s e = true := by
      cases e with
      | submit id t =>
          have hstale : t - s.tasker.stats.last_success > 300 := by
            rw [h2]; simp only [evTime] at ht; omega
          have hrej := addTask_stale_reject s.tasker id t hstale
          refine ⟨?_, ?_, ?_⟩
          · simp [applyEv, hrej.1, h1]
          · simp only [applyEv]
            rw [hrej.2, h2]
          · simp [evRejected, hrej.1]
      | complete id success t =>
          have hni : id ∉ s.inflight := by simp [h1]
          exact ⟨by simp [applyEv, hni, h1], by simp [applyEv, hni, h2], rfl⟩
      | timeoutEv id t =>
          refine ⟨h1, ?_, rfl⟩
          show (timeoutFire s.tasker id).1.stats.last_success = L
          simp only [timeoutFire]
          split <;> exact h2
    have ihres := ih (applyEv s e) hstep.1 hstep.2.1 h4'
    refine ⟨?_, ihres.2.1, ihres.2.2⟩
    have hcons : submitsAllRejected s (e :: es) =
        (evRejected s e && submitsAllRejected (applyEv s e) es) := rfl
    rw [hcons, hstep.2.2, ihres.1]
    rfl

/-- A system that has seen no success since its construction at time 0,
with nothing in flight. -/
def sysStale : SysState := { tasker := initTasker 1 0, inflight := [] }

/-- Events all happening after the 300-second staleness point. -/
def staleTrace : List Ev :=
  [.submit "X" 310, .timeoutEv "X" 311, .complete "X" true 312, .submit "Y" 400]

/-- C9 witness: from a stale, nothing-in-flight system, every submission
of the trace is rejected and the last-success timestamp never moves. -/
theorem c9_witness :
    submitsAllRejected sysStale staleTrace = true ∧
    (applyEvs sysStale staleTrace).inflight = [] ∧
    (applyEvs sysStale staleTrace).tasker.stats.last_success = 0 :=
  c9_amended 301 0 (by decide) staleTrace sysStale rfl rfl (by decide)

end CF
